import Mathlib

/-!
Verification of the exam-generation orchestration core
(`src/backend/exam-generation/exam_generation_handler.py`).

The Python handler is shallowly embedded as pure Lean functions:

* JSON-ish request values are modelled by `JVal` (Python `bool` counts as an
  `int`, as in the CPython check `isinstance(x, int)`).
* `validate_exam_config`, `handle_exam_generation_async` and
  `handle_get_generation_results` are direct translations of the functions of
  the same names; the DynamoDB table becomes an explicit list of writes or a
  point lookup argument, HTTP responses become inductive result values.
* The background worker `process_exam_generation_background` becomes a function
  from a job configuration and a failure oracle (`Env`: per-version outcome of
  the Bedrock/S3 sub-steps, the self-assessment outcome, and whether the final
  `update_item` raises) to the list of persisted effects (`Event`): S3 puts and
  DynamoDB writes, in execution order.  Only effects that actually persist are
  recorded; a raising `put_object`/`update_item` persists nothing.
* `update_progress` persists the same five core fields (with the identically
  clamped percentage) in both its enriched and its degraded-fallback tier;
  the trace records that common core (`ProgressRecord`), while the enriched
  extras (ETA offset, velocity, elapsed) are modelled by `progress_info`.
  The purely informational `stepDetails` / `versionProgress` dictionaries and
  the `lastUpdated` wall-clock stamps are not claimed by any property and are
  not modelled.
* Timestamps are abstracted to offsets: `calculate_estimated_completion`
  returns the `t` of `now + t seconds` as an exact rational.  Python float
  truncations `int(x * 80)` in the percentage arguments of the loop are modelled as
  rational floors; on the whole reachable domain (total steps <= 5,
  version <= 4) the two agree (checked case by case), and every claim below is
  insensitive to the exact pre-clamp value anyway.
-/

namespace ExamGen

/-- A JSON-like Python value as it arrives in the request body.  `jbool` is
kept separate but, as in CPython, `isinstance(True, int)` holds and
`True == 1`. -/
inductive JVal where
  | jint (n : ℤ)
  | jbool (b : Bool)
  | jstr (s : String)
  | jlist (l : List JVal)
  | jnull

/-- CPython `isinstance(v, int)`: true for `int` and for `bool` (a subclass). -/
def JVal.isInt : JVal → Bool
  | .jint _ => true
  | .jbool _ => true
  | _ => false

/-- The integer value of an `isInt` value (`True == 1`, `False == 0`). -/
def JVal.toInt : JVal → ℤ
  | .jint n => n
  | .jbool b => if b then 1 else 0
  | _ => 0

/-- CPython truthiness, as used by `if not question_types:`. -/
def JVal.truthy : JVal → Bool
  | .jint n => n ≠ 0
  | .jbool b => b
  | .jstr s => s ≠ ""
  | .jlist l => ¬ l.isEmpty
  | .jnull => false

/-- CPython iteration `for qt in v`: lists yield their elements, strings yield
their characters as one-character strings, anything else raises `TypeError`
(modelled as `none`). -/
def JVal.pyIter : JVal → Option (List JVal)
  | .jlist l => some l
  | .jstr s => some (s.toList.map fun c => JVal.jstr (String.mk [c]))
  | _ => none

/-- CPython `v in strs` for a list of strings: equality against each string;
a non-string value is simply not equal to any of them. -/
def JVal.inStrList (v : JVal) (strs : List String) : Bool :=
  strs.any fun s =>
    match v with
    | .jstr t => t == s
    | _ => false

/-- The `examConfig` dict of a submission.  Absent keys are `none`
(`config.get(...)` then supplies the Python default). -/
structure ExamConfig where
  questionCount : Option JVal := none
  questionTypes : Option JVal := none
  difficulty : Option JVal := none
  versions : Option JVal := none
  includeSelfAssessment : Bool := false

/-- Translation of `validate_exam_config` (lines 672-696).  Returns
`some message` on the first failing check, `none` when the config is valid.
The Python `f"... {valid_types}"` messages render the list with quotes around
each entry; the quotes are elided here, the field names and bounds are kept
verbatim.  A `questionTypes` value that CPython cannot iterate raises
`TypeError`, which the surrounding `except` turns into the
"Invalid configuration format" message. -/
def validate_exam_config (config : ExamConfig) : Option String :=
  if (config.questionCount.getD (.jint 0)).isInt = false ∨
     (config.questionCount.getD (.jint 0)).toInt < 1 ∨
     (config.questionCount.getD (.jint 0)).toInt > 20 then
    some "questionCount must be an integer between 1 and 20"
  else if (config.questionTypes.getD (.jlist [])).truthy = false then
    some "questionTypes must contain valid types: [multiple_choice, true_false, mixed]"
  else
    match (config.questionTypes.getD (.jlist [])).pyIter with
    | none => some "Invalid configuration format: questionTypes is not iterable"
    | some qts =>
      if (qts.all fun qt => qt.inStrList ["multiple_choice", "true_false", "mixed"]) = false then
        some "questionTypes must contain valid types: [multiple_choice, true_false, mixed]"
      else if (config.difficulty.getD (.jstr "")).inStrList ["easy", "medium", "hard"] = false then
        some "difficulty must be one of: [easy, medium, hard]"
      else if (config.versions.getD (.jint 1)).isInt = false ∨
              (config.versions.getD (.jint 1)).toInt < 1 ∨
              (config.versions.getD (.jint 1)).toInt > 4 then
        some "versions must be an integer between 1 and 4"
      else
        none

/-- The progress sub-record fields that every persisted progress write shares
(both the enriched write of `update_progress` and its degraded fallback write
persist exactly these, with the same clamped percentage).  The initial record
written at submission has no `message` key; it is modelled as `""`. -/
structure ProgressRecord where
  currentStep : String
  completedVersions : ℕ
  totalVersions : ℕ
  percentage : ℤ
  message : String
deriving DecidableEq, Repr

/-- The `versions` value the handler reads with `exam_config.get("versions", 1)`
when building the initial record; for a validated config this is the requested
version count. -/
def ExamConfig.versionsNat (config : ExamConfig) : ℕ :=
  ((config.versions.getD (.jint 1)).toInt).toNat

/-- The initial DynamoDB record `put_item` by `handle_exam_generation_async`
(lines 114-135), restricted to the fields the claims are about. -/
structure InitialRecord where
  analysisId : String
  status : String
  selectedTopics : List String
  examConfig : ExamConfig
  progress : ProgressRecord

/-- The progress sub-dict of the initial record: `currentStep "initializing"`,
zero progress. -/
def initial_progress (totalVersions : ℕ) : ProgressRecord :=
  { currentStep := "initializing"
    completedVersions := 0
    totalVersions := totalVersions
    percentage := 0
    message := "" }

/-- The initial record as written by the POST handler. -/
def initial_record (examId : String) (topics : List String) (config : ExamConfig) :
    InitialRecord :=
  { analysisId := s!"exam-{examId}"
    status := "PROCESSING"
    selectedTopics := topics
    examConfig := config
    progress := initial_progress config.versionsNat }

/-- The HTTP-level outcome of the POST endpoint. -/
inductive SubmitResult where
  | error (statusCode : ℕ) (code : String) (message : String)
  | accepted (examId : String) (status : String) (percentage : ℤ)

/-- Translation of `handle_exam_generation_async` (lines 77-168) up to the
hand-off to the background thread: the empty-topics and missing-config guards,
`validate_exam_config`, and the `put_item` of the initial record.  The second
component is the list of records written to the job store (empty exactly when
the request is rejected).  A missing or empty (falsy) `examConfig` is modelled
as `none`. -/
def handle_exam_generation_async (selectedTopics : List String)
    (examConfig : Option ExamConfig) (examId : String) :
    SubmitResult × List InitialRecord :=
  if selectedTopics.isEmpty = true then
    (.error 400 "MISSING_TOPICS" "selectedTopics array is required", [])
  else
    match examConfig with
    | none => (.error 400 "MISSING_CONFIG" "examConfig is required", [])
    | some config =>
      match validate_exam_config config with
      | some msg => (.error 400 "INVALID_CONFIG" msg, [])
      | none =>
        (.accepted examId "PROCESSING" 0, [initial_record examId selectedTopics config])

/-- Spec-side definition, from the words of the claim: is `questionCount` an
integer inside `[1,20]`?  (`bool` counts as `int`, as the
`isinstance` does.) -/
def spec_questionCount_ok (config : ExamConfig) : Bool :=
  let qc := config.questionCount.getD (.jint 0)
  qc.isInt && decide (1 ≤ qc.toInt) && decide (qc.toInt ≤ 20)

/-- Spec-side definition: is `questionTypes` a non-empty list all of whose
entries are valid type names? -/
def spec_questionTypes_ok (config : ExamConfig) : Bool :=
  match config.questionTypes.getD (.jlist []) with
  | .jlist l =>
    !l.isEmpty && l.all fun qt => qt.inStrList ["multiple_choice", "true_false", "mixed"]
  | _ => false

/-- Spec-side definition: is `difficulty` one of easy/medium/hard? -/
def spec_difficulty_ok (config : ExamConfig) : Bool :=
  (config.difficulty.getD (.jstr "")).inStrList ["easy", "medium", "hard"]

/-- Spec-side definition: is `versions` an integer inside `[1,4]`? -/
def spec_versions_ok (config : ExamConfig) : Bool :=
  let v := config.versions.getD (.jint 1)
  v.isInt && decide (1 ≤ v.toInt) && decide (v.toInt ≤ 4)

/-- Spec-side definition, built from the constraint list of the claim in the
check order of the endpoint: the name of the first offending config field, or
`none` when the config satisfies every constraint. -/
def spec_first_offending_field (config : ExamConfig) : Option String :=
  if spec_questionCount_ok config = false then some "questionCount"
  else if spec_questionTypes_ok config = false then some "questionTypes"
  else if spec_difficulty_ok config = false then some "difficulty"
  else if spec_versions_ok config = false then some "versions"
  else none

/-- The static per-step base estimates of `calculate_estimated_completion`
(lines 416-424), as an exact-key lookup — Python `current_step in
step_time_estimates` matches dictionary keys exactly, never prefixes. -/
def step_time_estimates (total_versions : ℕ) (current_step : String) : Option ℚ :=
  if current_step = "initializing" then some 5
  else if current_step = "generating_questions" then some (45 * total_versions)
  else if current_step = "generating_version" then some 45
  else if current_step = "formatting_version" then some 10
  else if current_step = "generating_self_assessment" then some 30
  else if current_step = "completed" then some 0
  else if current_step = "failed" then some 0
  else none

/-- The `base_estimate` of the step-based fallback (lines 440-444): table
lookup by the current step tag, defaulting to the remaining-percentage
estimate of one minute per version. -/
def base_estimate (current_percentage : ℚ) (total_versions : ℕ)
    (current_step : String) : ℚ :=
  match step_time_estimates total_versions current_step with
  | some b => b
  | none => ((100 - current_percentage) / 100) * ((total_versions : ℚ) * 60)

/-- The step-based fallback of `calculate_estimated_completion` (lines
439-448): the base estimate with the 1.2 buffer, clamped to `[30, 600]`
seconds. -/
def fallback_estimate (current_percentage : ℚ) (total_versions : ℕ)
    (current_step : String) : ℚ :=
  max 30 (min (base_estimate current_percentage total_versions current_step * 1.2) 600)

/-- Translation of `calculate_estimated_completion` (lines 410-455), returning
the offset `t` of the produced timestamp `now + t` seconds; the
`progress_rate` of line 428 is inlined.  When the inner `progress_rate > 0`
test fails the Python code falls through to the same step-based fallback.
The `except` branch (a 5-minute = 300 s fallback) is unreachable in this pure
arithmetic model. -/
def calculate_estimated_completion (current_percentage previous_percentage : ℚ)
    (elapsed_time : ℚ) (total_versions : ℕ) (current_step : String) : ℚ :=
  if elapsed_time > 0 ∧ current_percentage > previous_percentage then
    if (current_percentage - previous_percentage) / elapsed_time > 0 then
      max 10 (min ((100 - current_percentage) /
        ((current_percentage - previous_percentage) / elapsed_time)) 600)
    else fallback_estimate current_percentage total_versions current_step
  else fallback_estimate current_percentage total_versions current_step

/-- Translation of `calculate_progress_velocity` (lines 524-531). -/
def calculate_progress_velocity (current_percentage previous_percentage : ℚ)
    (elapsed_time : ℚ) : ℚ :=
  if elapsed_time > 0 ∧ current_percentage > previous_percentage then
    (current_percentage - previous_percentage) / elapsed_time
  else 0

/-- The percentage clamp `min(max(percentage, 0), 100)` applied by both tiers
of `update_progress` (lines 357 and 396). -/
def clamp_percentage (percentage : ℤ) : ℤ :=
  min (max percentage 0) 100

/-- The five-field core persisted by `update_progress` — identical in the
enriched write (line 353) and the degraded fallback write (line 392); only the
enrichment extras differ between the tiers. -/
def update_progress (current_step : String) (completed_versions total_versions : ℕ)
    (percentage : ℤ) (message : String) : ProgressRecord :=
  { currentStep := current_step
    completedVersions := completed_versions
    totalVersions := total_versions
    percentage := clamp_percentage percentage
    message := message }

/-- The enriched first-tier progress payload of `update_progress`
(lines 353-364): the shared core plus the time-derived extras, as functions of
the previous percentage read back from the store and of the elapsed time (both
`0` when the read-back fails, lines 339-342). -/
structure EnrichedProgress where
  core : ProgressRecord
  estimatedCompletionOffset : ℚ
  velocity : ℚ
  elapsedTime : ℚ

/-- The enriched progress record `progress_info` built by `update_progress`. -/
def progress_info (current_step : String) (completed_versions total_versions : ℕ)
    (percentage : ℤ) (message : String)
    (previous_percentage elapsed_time : ℚ) : EnrichedProgress :=
  { core := update_progress current_step completed_versions total_versions percentage message
    estimatedCompletionOffset :=
      calculate_estimated_completion (percentage : ℚ) previous_percentage elapsed_time
        total_versions current_step
    velocity := calculate_progress_velocity (percentage : ℚ) previous_percentage elapsed_time
    elapsedTime := elapsed_time }

/-- An artifact descriptor as appended to `generated_files` (lines 215-232,
260-265). -/
structure GeneratedFile where
  type : String
  version : ℕ
  s3Key : String
  format : String
deriving DecidableEq, Repr

/-- A persisted side effect of the background worker, in execution order:
an S3 `put_object`, a progress `update_item` (either tier — both persist the
same `ProgressRecord` core), the terminal COMPLETED `update_item` (the only
write carrying `generatedFiles` and `completedAt`), or the terminal FAILED
`update_item` (carrying `errorMessage` and `failedAt`).  A raising
`put_object`/`update_item` persists nothing and so contributes no event. -/
inductive Event where
  | s3Put (s3Key : String)
  | dbProgress (p : ProgressRecord)
  | dbComplete (files : List GeneratedFile) (p : ProgressRecord)
  | dbFailed (errorMessage : String) (p : ProgressRecord)
deriving DecidableEq, Repr

/-- Outcome of the fallible sub-steps for one version of the loop body
(lines 192-238): everything succeeds, the Bedrock generation call raises
(carrying `str(version_error)`), the student upload raises, or the teacher
upload raises (after the student artifact was already uploaded and
appended). -/
inductive VersionOutcome where
  | success
  | genFails (err : String)
  | studentUploadFails (err : String)
  | teacherUploadFails (err : String)
deriving DecidableEq, Repr

/-- Failure oracle for one background run: what the fallible
sub-steps do, whether the self-assessment generation/upload succeeds, and
whether the terminal COMPLETED `update_item` raises (`some err` models the
exception that the outer `except` then stringifies). -/
structure Env where
  versionOutcome : ℕ → VersionOutcome
  selfAssessmentOk : Bool
  finalWriteError : Option String

/-- `exams/exam-{exam_id}/v{version}-student.txt` (line 212). -/
def student_s3_key (examId : String) (version : ℕ) : String :=
  s!"exams/exam-{examId}/v{version}-student.txt"

/-- `exams/exam-{exam_id}/v{version}-teacher.txt` (line 224). -/
def teacher_s3_key (examId : String) (version : ℕ) : String :=
  s!"exams/exam-{examId}/v{version}-teacher.txt"

/-- `exams/exam-{exam_id}/self-assessment.txt` (line 257). -/
def self_assessment_s3_key (examId : String) : String :=
  s!"exams/exam-{examId}/self-assessment.txt"

/-- The student-version descriptor appended at lines 215-220. -/
def studentFile (examId : String) (version : ℕ) : GeneratedFile :=
  { type := "student_version", version := version
    s3Key := student_s3_key examId version, format := "TXT" }

/-- The teacher-version descriptor appended at lines 227-232. -/
def teacherFile (examId : String) (version : ℕ) : GeneratedFile :=
  { type := "teacher_version", version := version
    s3Key := teacher_s3_key examId version, format := "TXT" }

/-- The self-assessment descriptor appended at lines 260-265; version is the
constant `1`. -/
def selfAssessmentFile (examId : String) : GeneratedFile :=
  { type := "self_assessment", version := 1
    s3Key := self_assessment_s3_key examId, format := "TXT" }

/-- `total_steps = total_versions + (1 if include_self_assessment else 0)`
(line 181). -/
def total_steps (totalVersions : ℕ) (includeSelfAssessment : Bool) : ℕ :=
  totalVersions + (if includeSelfAssessment then 1 else 0)

/-- `int((version - 1) / total_steps * 80) + 10` (line 196); the float
truncation is modelled as the exact rational floor, with which it coincides on
the reachable domain. -/
def step_progress (totalSteps version : ℕ) : ℤ :=
  10 + ((80 * (version - 1)) / totalSteps : ℕ)

/-- `int((version - 0.5) / total_steps * 80) + 10` (line 205); `(v - 0.5) * 80
= 40 * (2v - 1)`. -/
def format_progress (totalSteps version : ℕ) : ℤ :=
  10 + ((40 * (2 * version - 1)) / totalSteps : ℕ)

/-- `int(version / total_steps * 80) + 10` (line 235). -/
def version_progress (totalSteps version : ℕ) : ℤ :=
  10 + ((80 * version) / totalSteps : ℕ)

/-- The persisted effects and the descriptors appended to the worker-local
`generated_files` list for one iteration of the version loop (lines 191-245),
as determined by the outcome of that version.  On any raise the `except` arm
records the `error_version_{version}` progress update and the loop continues;
descriptors already appended (the student one, when only the teacher upload
raises) survive in the local list. -/
def process_version (totalSteps totalVersions : ℕ) (examId : String) (version : ℕ)
    (outcome : VersionOutcome) : List Event × List GeneratedFile :=
  let generating := Event.dbProgress (update_progress s!"generating_version_{version}"
    (version - 1) totalVersions (step_progress totalSteps version)
    s!"Generating version {version} questions...")
  let formatting := Event.dbProgress (update_progress s!"formatting_version_{version}"
    (version - 1) totalVersions (format_progress totalSteps version)
    s!"Formatting version {version} content...")
  let errorEvent (err : String) := Event.dbProgress (update_progress
    s!"error_version_{version}" (version - 1) totalVersions
    (step_progress totalSteps version) s!"Error in version {version}: {err}")
  match outcome with
  | .genFails err => ([generating, errorEvent err], [])
  | .studentUploadFails err => ([generating, formatting, errorEvent err], [])
  | .teacherUploadFails err =>
    ([generating, formatting, Event.s3Put (student_s3_key examId version), errorEvent err],
     [studentFile examId version])
  | .success =>
    ([generating, formatting,
      Event.s3Put (student_s3_key examId version),
      Event.s3Put (teacher_s3_key examId version),
      Event.dbProgress (update_progress s!"completed_version_{version}" version totalVersions
        (version_progress totalSteps version) s!"Version {version} completed")],
     [studentFile examId version, teacherFile examId version])

/-- Concatenation of the lists produced for each element, i.e. the Python
appending inside a `for` loop. -/
def concatMap (f : α → List β) : List α → List β
  | [] => []
  | a :: l => f a ++ concatMap f l

/-- The versions `range(1, total_versions + 1)` iterated by the loop, built so
that version `n + 1` is appended last. -/
def version_list : ℕ → List ℕ
  | 0 => []
  | n + 1 => version_list n ++ [n + 1]

/-- All persisted effects of the version loop. -/
def loop_events (examId : String) (totalSteps totalVersions : ℕ) (env : Env) : List Event :=
  concatMap (fun v => (process_version totalSteps totalVersions examId v
    (env.versionOutcome v)).1) (version_list totalVersions)

/-- All descriptors the version loop appends to `generated_files`. -/
def loop_files (examId : String) (totalSteps totalVersions : ℕ) (env : Env) :
    List GeneratedFile :=
  concatMap (fun v => (process_version totalSteps totalVersions examId v
    (env.versionOutcome v)).2) (version_list totalVersions)

/-- The persisted effects of the self-assessment block (lines 248-269): the
90% progress update always happens first inside the `try`; on success the
artifact is uploaded; any failure is swallowed without further effects. -/
def sa_events (examId : String) (totalVersions : ℕ)
    (includeSelfAssessment ok : Bool) : List Event :=
  if includeSelfAssessment then
    Event.dbProgress (update_progress "generating_self_assessment" totalVersions totalVersions
        90 "Generating self-assessment...")
      :: (if ok then [Event.s3Put (self_assessment_s3_key examId)] else [])
  else []

/-- The descriptor the self-assessment block appends (only when requested and
successful). -/
def sa_files (examId : String) (includeSelfAssessment ok : Bool) : List GeneratedFile :=
  if includeSelfAssessment && ok then [selfAssessmentFile examId] else []

/-- The progress sub-record of the terminal COMPLETED write (lines 281-288). -/
def completed_progress (totalVersions nfiles : ℕ) : ProgressRecord :=
  { currentStep := "completed"
    completedVersions := totalVersions
    totalVersions := totalVersions
    percentage := 100
    message := s!"Successfully generated {nfiles} files" }

/-- The progress sub-record of the terminal FAILED write (lines 307-314):
`completedVersions` and `percentage` are reset to `0` unconditionally. -/
def failed_progress (totalVersions : ℕ) (err : String) : ProgressRecord :=
  { currentStep := "failed"
    completedVersions := 0
    totalVersions := totalVersions
    percentage := 0
    message := s!"Generation failed: {err}" }

/-- Everything the worker persists before its terminal write: the initial
`generating_questions` update at 5% (line 184), the version loop, and the
self-assessment block. -/
def body_events (examId : String) (totalVersions : ℕ) (includeSelfAssessment : Bool)
    (env : Env) : List Event :=
  Event.dbProgress (update_progress "generating_questions" 0 totalVersions 5
      "Starting question generation...")
    :: loop_events examId (total_steps totalVersions includeSelfAssessment) totalVersions env
    ++ sa_events examId totalVersions includeSelfAssessment env.selfAssessmentOk

/-- The full `generated_files` list at the end of the run. -/
def generated_files_final (examId : String) (totalVersions : ℕ)
    (includeSelfAssessment : Bool) (env : Env) : List GeneratedFile :=
  loop_files examId (total_steps totalVersions includeSelfAssessment) totalVersions env
    ++ sa_files examId includeSelfAssessment env.selfAssessmentOk

/-- Translation of `process_exam_generation_background` (lines 170-316) as the
list of persisted effects: the body, then either the terminal COMPLETED write
(status, the whole `generated_files` list, `completedAt`, 100% progress) or —
when that `update_item` raises — the terminal FAILED write installed by the
outer `except` (status, `errorMessage`, `failedAt`, and the zeroed progress
sub-record). -/
def process_exam_generation_background (examId : String) (totalVersions : ℕ)
    (includeSelfAssessment : Bool) (env : Env) : List Event :=
  body_events examId totalVersions includeSelfAssessment env ++
    match env.finalWriteError with
    | none =>
      [Event.dbComplete (generated_files_final examId totalVersions includeSelfAssessment env)
        (completed_progress totalVersions
          (generated_files_final examId totalVersions includeSelfAssessment env).length)]
    | some err => [Event.dbFailed err (failed_progress totalVersions err)]

/-- The job record as far as the DynamoDB writes touch it: `status`, the
`progress` sub-record, and the fields set only by the terminal writes.
`completedAt`/`failedAt` are abstracted to presence flags. -/
structure JobRecord where
  status : String
  progress : ProgressRecord
  generatedFiles : Option (List GeneratedFile)
  errorMessage : Option String
  completedAt : Bool
  failedAt : Bool
deriving DecidableEq, Repr

/-- Effect of one persisted write on the job record: progress writes replace
only `progress`; the terminal writes additionally set their `SET` fields;
S3 puts do not touch the record. -/
def applyEvent (r : JobRecord) : Event → JobRecord
  | .s3Put _ => r
  | .dbProgress p => { r with progress := p }
  | .dbComplete files p =>
    { r with status := "COMPLETED", generatedFiles := some files
             progress := p, completedAt := true }
  | .dbFailed err p =>
    { r with status := "FAILED", errorMessage := some err
             progress := p, failedAt := true }

/-- The job record as created by the submission endpoint, before the worker
runs. -/
def initialJobRecord (totalVersions : ℕ) : JobRecord :=
  { status := "PROCESSING"
    progress := initial_progress totalVersions
    generatedFiles := none
    errorMessage := none
    completedAt := false
    failedAt := false }

/-- The job record after the background worker has run to the end. -/
def runJob (examId : String) (totalVersions : ℕ) (includeSelfAssessment : Bool)
    (env : Env) : JobRecord :=
  (process_exam_generation_background examId totalVersions includeSelfAssessment env).foldl
    applyEvent (initialJobRecord totalVersions)

/-- The progress sub-record a persisted write installs, when it installs
one. -/
def Event.progressOf : Event → Option ProgressRecord
  | .s3Put _ => none
  | .dbProgress p => some p
  | .dbComplete _ p => some p
  | .dbFailed _ p => some p

/-- Every progress sub-record persisted by a list of effects. -/
def progress_writes (events : List Event) : List ProgressRecord :=
  events.filterMap Event.progressOf

/-- Does this write reference artifact descriptors in the job record? -/
def Event.referencesFiles : Event → Bool
  | .dbComplete _ _ => true
  | _ => false

/-- Is this one of the two terminal status writes? -/
def Event.isTerminalWrite : Event → Bool
  | .dbComplete _ _ => true
  | .dbFailed _ _ => true
  | _ => false

/-- The stored item as `handle_get_generation_results` reads it back: every
field is optional because the Python code uses `item.get(...)` throughout. -/
structure ExamItem where
  status : Option String
  examConfig : Option ExamConfig
  selectedTopics : List String
  createdAt : Option String
  progress : Option ProgressRecord
  generatedFiles : Option (List GeneratedFile)
  completedAt : Option String
  errorMessage : Option String
  failedAt : Option String

/-- The response body of a successful GET (lines 633-648).  An outer `none`
models an absent key: `generatedFiles`/`completedAt` are present exactly on
the COMPLETED branch, `errorMessage`/`failedAt` exactly on the FAILED branch;
the inner option of `completedAt`/`errorMessage`/`failedAt` is the stored
value, which may itself be Python `None`. -/
structure ResponseData where
  examId : String
  status : String
  examConfig : ExamConfig
  selectedTopics : List String
  createdAt : Option String
  progress : Option ProgressRecord
  generatedFiles : Option (List GeneratedFile)
  completedAt : Option (Option String)
  errorMessage : Option (Option String)
  failedAt : Option (Option String)

/-- The HTTP-level outcome of the GET endpoint. -/
inductive GetResult where
  | error (statusCode : ℕ) (code : String) (message : String)
  | ok (data : ResponseData)

/-- Translation of `handle_get_generation_results` (lines 551-670) after the
transport-level id extraction: the id (already resolved through the path
fallbacks, `none` when every strategy failed) and the point lookup result.
The environment/table plumbing errors (lines 595-622) are store failures
outside this pure model. -/
def handle_get_generation_results (examId : Option String)
    (stored : Option ExamItem) : GetResult :=
  match examId with
  | none => .error 400 "MISSING_EXAM_ID" "examId is required"
  | some eid =>
    match stored with
    | none => .error 404 "EXAM_NOT_FOUND" s!"Exam {eid} not found"
    | some item =>
      if item.status = some "COMPLETED" then
        .ok { examId := eid
              status := item.status.getD "UNKNOWN"
              examConfig := item.examConfig.getD {}
              selectedTopics := item.selectedTopics
              createdAt := item.createdAt
              progress := item.progress
              generatedFiles := some (item.generatedFiles.getD [])
              completedAt := some item.completedAt
              errorMessage := none
              failedAt := none }
      else if item.status = some "FAILED" then
        .ok { examId := eid
              status := item.status.getD "UNKNOWN"
              examConfig := item.examConfig.getD {}
              selectedTopics := item.selectedTopics
              createdAt := item.createdAt
              progress := item.progress
              generatedFiles := none
              completedAt := none
              errorMessage := some item.errorMessage
              failedAt := some item.failedAt }
      else
        .ok { examId := eid
              status := item.status.getD "UNKNOWN"
              examConfig := item.examConfig.getD {}
              selectedTopics := item.selectedTopics
              createdAt := item.createdAt
              progress := item.progress
              generatedFiles := none
              completedAt := none
              errorMessage := none
              failedAt := none }

/-! Supporting lemmas about the list combinators and the event trace. -/

theorem concatMap_append (f : α → List β) (l₁ l₂ : List α) :
    concatMap f (l₁ ++ l₂) = concatMap f l₁ ++ concatMap f l₂ := by
  induction l₁ with
  | nil => simp [concatMap]
  | cons a l ih => simp [concatMap, ih]

theorem mem_concatMap {f : α → List β} {b : β} {l : List α} :
    b ∈ concatMap f l ↔ ∃ a ∈ l, b ∈ f a := by
  induction l with
  | nil => simp [concatMap]
  | cons a l ih => simp [concatMap, ih, List.mem_append]

theorem concatMap_congr {f g : α → List β} {l : List α}
    (h : ∀ a ∈ l, f a = g a) : concatMap f l = concatMap g l := by
  induction l with
  | nil => rfl
  | cons a l ih =>
    simp only [concatMap, h a (List.mem_cons_self a l)]
    exact congrArg _ (ih fun a ha => h a (List.mem_cons_of_mem _ ha))

theorem mem_version_list {v n : ℕ} : v ∈ version_list n ↔ 1 ≤ v ∧ v ≤ n := by
  induction n with
  | zero =>
    simp only [version_list, List.not_mem_nil, false_iff]
    omega
  | succ n ih =>
    simp only [version_list, List.mem_append, List.mem_singleton, ih]
    omega

theorem length_version_list (n : ℕ) : (version_list n).length = n := by
  induction n with
  | zero => rfl
  | succ n ih => simp [version_list, ih]

theorem loop_files_congr (examId : String) (ts N : ℕ) (env : Env)
    (f : ℕ → VersionOutcome) (h : ∀ v, 1 ≤ v → v ≤ N → env.versionOutcome v = f v) :
    loop_files examId ts N env
      = concatMap (fun v => (process_version ts N examId v (f v)).2) (version_list N) := by
  refine concatMap_congr fun v hv => ?_
  rw [h v (mem_version_list.1 hv).1 (mem_version_list.1 hv).2]

theorem loop_events_congr (examId : String) (ts N : ℕ) (env : Env)
    (f : ℕ → VersionOutcome) (h : ∀ v, 1 ≤ v → v ≤ N → env.versionOutcome v = f v) :
    loop_events examId ts N env
      = concatMap (fun v => (process_version ts N examId v (f v)).1) (version_list N) := by
  refine concatMap_congr fun v hv => ?_
  rw [h v (mem_version_list.1 hv).1 (mem_version_list.1 hv).2]

theorem filter_student_pairs (examId : String) (l : List ℕ) :
    (concatMap (fun v => [studentFile examId v, teacherFile examId v]) l).filter
        (fun g => g.type == "student_version")
      = l.map (studentFile examId) := by
  induction l with
  | nil => rfl
  | cons v l ih =>
    simp only [concatMap, List.filter_append, ih, List.map_cons]
    rfl

theorem filter_teacher_pairs (examId : String) (l : List ℕ) :
    (concatMap (fun v => [studentFile examId v, teacherFile examId v]) l).filter
        (fun g => g.type == "teacher_version")
      = l.map (teacherFile examId) := by
  induction l with
  | nil => rfl
  | cons v l ih =>
    simp only [concatMap, List.filter_append, ih, List.map_cons]
    rfl

theorem filter_kind_pairs (examId : String) (l : List ℕ) :
    (concatMap (fun v => [studentFile examId v, teacherFile examId v]) l).filter
        (fun g => g.type == "student_version" || g.type == "teacher_version")
      = concatMap (fun v => [studentFile examId v, teacherFile examId v]) l := by
  induction l with
  | nil => rfl
  | cons v l ih =>
    simp only [concatMap, List.filter_append, ih]
    rfl

theorem length_pairs (examId : String) (l : List ℕ) :
    (concatMap (fun v => [studentFile examId v, teacherFile examId v]) l).length
      = 2 * l.length := by
  induction l with
  | nil => rfl
  | cons v l ih =>
    simp only [concatMap, List.length_append, ih, List.length_cons, List.length_nil]
    omega

theorem sa_files_filter_student (examId : String) (sa ok : Bool) :
    (sa_files examId sa ok).filter (fun g => g.type == "student_version") = [] := by
  cases sa <;> cases ok <;> rfl

theorem sa_files_filter_teacher (examId : String) (sa ok : Bool) :
    (sa_files examId sa ok).filter (fun g => g.type == "teacher_version") = [] := by
  cases sa <;> cases ok <;> rfl

theorem sa_files_filter_kind (examId : String) (sa ok : Bool) :
    (sa_files examId sa ok).filter
        (fun g => g.type == "student_version" || g.type == "teacher_version") = [] := by
  cases sa <;> cases ok <;> rfl

theorem sa_files_filter_self (examId : String) (sa ok : Bool) :
    (sa_files examId sa ok).filter (fun g => g.type == "self_assessment")
      = sa_files examId sa ok := by
  cases sa <;> cases ok <;> rfl

theorem process_version_files_no_self (ts N : ℕ) (examId : String) (v : ℕ)
    (o : VersionOutcome) :
    ((process_version ts N examId v o).2).filter (fun g => g.type == "self_assessment")
      = [] := by
  cases o <;> rfl

theorem loop_files_no_self (examId : String) (ts N : ℕ) (env : Env) :
    (loop_files examId ts N env).filter (fun g => g.type == "self_assessment") = [] := by
  unfold loop_files
  induction version_list N with
  | nil => rfl
  | cons v l ih =>
    simp only [concatMap, List.filter_append, ih, process_version_files_no_self,
      List.nil_append]

theorem process_version_events_not_terminal (ts N : ℕ) (examId : String) (v : ℕ)
    (o : VersionOutcome) :
    ∀ ev ∈ (process_version ts N examId v o).1, ev.isTerminalWrite = false := by
  intro ev hev
  cases o with
  | genFails err =>
    simp only [process_version, List.mem_cons, List.not_mem_nil, or_false] at hev
    rcases hev with rfl | rfl <;> rfl
  | studentUploadFails err =>
    simp only [process_version, List.mem_cons, List.not_mem_nil, or_false] at hev
    rcases hev with rfl | rfl | rfl <;> rfl
  | teacherUploadFails err =>
    simp only [process_version, List.mem_cons, List.not_mem_nil, or_false] at hev
    rcases hev with rfl | rfl | rfl | rfl <;> rfl
  | success =>
    simp only [process_version, List.mem_cons, List.not_mem_nil, or_false] at hev
    rcases hev with rfl | rfl | rfl | rfl | rfl <;> rfl

theorem sa_events_not_terminal (examId : String) (N : ℕ) (sa ok : Bool) :
    ∀ ev ∈ sa_events examId N sa ok, ev.isTerminalWrite = false := by
  intro ev hev
  cases sa with
  | false => simp [sa_events] at hev
  | true =>
    cases ok with
    | false =>
      simp [sa_events] at hev
      subst hev; rfl
    | true =>
      simp [sa_events] at hev
      rcases hev with rfl | rfl <;> rfl

theorem body_events_not_terminal (examId : String) (N : ℕ) (sa : Bool) (env : Env) :
    ∀ ev ∈ body_events examId N sa env, ev.isTerminalWrite = false := by
  intro ev hev
  unfold body_events at hev
  rcases List.mem_cons.1 hev with h | h
  · subst h; rfl
  rcases List.mem_append.1 h with h | h
  · obtain ⟨v, _, hv⟩ := mem_concatMap.1 h
    exact process_version_events_not_terminal _ _ _ _ _ ev hv
  · exact sa_events_not_terminal _ _ _ _ ev h

theorem foldl_applyEvent_frame (l : List Event) (r : JobRecord)
    (h : ∀ ev ∈ l, ev.isTerminalWrite = false) :
    (l.foldl applyEvent r).status = r.status ∧
    (l.foldl applyEvent r).generatedFiles = r.generatedFiles ∧
    (l.foldl applyEvent r).errorMessage = r.errorMessage ∧
    (l.foldl applyEvent r).completedAt = r.completedAt ∧
    (l.foldl applyEvent r).failedAt = r.failedAt := by
  induction l generalizing r with
  | nil => exact ⟨rfl, rfl, rfl, rfl, rfl⟩
  | cons ev l ih =>
    have hev := h ev (List.mem_cons_self ev l)
    have hrest := ih (applyEvent r ev) fun e he => h e (List.mem_cons_of_mem _ he)
    cases ev with
    | s3Put _ => exact hrest
    | dbProgress p => exact hrest
    | dbComplete files p => simp [Event.isTerminalWrite] at hev
    | dbFailed err p => simp [Event.isTerminalWrite] at hev

theorem runJob_completed (examId : String) (N : ℕ) (sa : Bool) (env : Env)
    (hfin : env.finalWriteError = none) :
    runJob examId N sa env =
      { status := "COMPLETED"
        progress := completed_progress N (generated_files_final examId N sa env).length
        generatedFiles := some (generated_files_final examId N sa env)
        errorMessage := none
        completedAt := true
        failedAt := false } := by
  obtain ⟨h1, h2, h3, h4, h5⟩ := foldl_applyEvent_frame
    (body_events examId N sa env) (initialJobRecord N)
    (body_events_not_terminal examId N sa env)
  simp only [runJob, process_exam_generation_background, hfin, List.foldl_append,
    List.foldl_cons, List.foldl_nil, applyEvent]
  rw [JobRecord.mk.injEq]
  exact ⟨rfl, rfl, rfl, h3, rfl, h5⟩

theorem runJob_failed (examId : String) (N : ℕ) (sa : Bool) (env : Env) (err : String)
    (hfail : env.finalWriteError = some err) :
    runJob examId N sa env =
      { status := "FAILED"
        progress := failed_progress N err
        generatedFiles := none
        errorMessage := some err
        completedAt := false
        failedAt := true } := by
  obtain ⟨h1, h2, h3, h4, h5⟩ := foldl_applyEvent_frame
    (body_events examId N sa env) (initialJobRecord N)
    (body_events_not_terminal examId N sa env)
  simp only [runJob, process_exam_generation_background, hfail, List.foldl_append,
    List.foldl_cons, List.foldl_nil, applyEvent]
  rw [JobRecord.mk.injEq]
  exact ⟨rfl, rfl, h2, rfl, h4, rfl⟩

/-- The percentage invariant of §3 of the spec. -/
def percentage_in_range (p : ProgressRecord) : Prop :=
  0 ≤ p.percentage ∧ p.percentage ≤ 100

theorem clamp_percentage_in_range (z : ℤ) :
    0 ≤ clamp_percentage z ∧ clamp_percentage z ≤ 100 :=
  ⟨le_min (le_max_right z 0) (by norm_num), min_le_right _ _⟩

theorem update_progress_in_range (current_step : String)
    (completed_versions total_versions : ℕ) (percentage : ℤ) (message : String) :
    percentage_in_range
      (update_progress current_step completed_versions total_versions percentage message) :=
  clamp_percentage_in_range percentage

theorem process_version_event_progress (ts N : ℕ) (examId : String) (v : ℕ)
    (o : VersionOutcome) :
    ∀ ev ∈ (process_version ts N examId v o).1, ∀ p, ev.progressOf = some p →
      percentage_in_range p := by
  intro ev hev p hp
  cases o with
  | genFails err =>
    simp only [process_version, List.mem_cons, List.not_mem_nil, or_false] at hev
    rcases hev with rfl | rfl <;>
      · simp only [Event.progressOf, Option.some.injEq] at hp
        exact hp ▸ update_progress_in_range _ _ _ _ _
  | studentUploadFails err =>
    simp only [process_version, List.mem_cons, List.not_mem_nil, or_false] at hev
    rcases hev with rfl | rfl | rfl <;>
      · simp only [Event.progressOf, Option.some.injEq] at hp
        exact hp ▸ update_progress_in_range _ _ _ _ _
  | teacherUploadFails err =>
    simp only [process_version, List.mem_cons, List.not_mem_nil, or_false] at hev
    rcases hev with rfl | rfl | rfl | rfl
    · simp only [Event.progressOf, Option.some.injEq] at hp
      exact hp ▸ update_progress_in_range _ _ _ _ _
    · simp only [Event.progressOf, Option.some.injEq] at hp
      exact hp ▸ update_progress_in_range _ _ _ _ _
    · simp [Event.progressOf] at hp
    · simp only [Event.progressOf, Option.some.injEq] at hp
      exact hp ▸ update_progress_in_range _ _ _ _ _
  | success =>
    simp only [process_version, List.mem_cons, List.not_mem_nil, or_false] at hev
    rcases hev with rfl | rfl | rfl | rfl | rfl
    · simp only [Event.progressOf, Option.some.injEq] at hp
      exact hp ▸ update_progress_in_range _ _ _ _ _
    · simp only [Event.progressOf, Option.some.injEq] at hp
      exact hp ▸ update_progress_in_range _ _ _ _ _
    · simp [Event.progressOf] at hp
    · simp [Event.progressOf] at hp
    · simp only [Event.progressOf, Option.some.injEq] at hp
      exact hp ▸ update_progress_in_range _ _ _ _ _

theorem sa_event_progress (examId : String) (N : ℕ) (sa ok : Bool) :
    ∀ ev ∈ sa_events examId N sa ok, ∀ p, ev.progressOf = some p →
      percentage_in_range p := by
  intro ev hev p hp
  cases sa with
  | false => simp [sa_events] at hev
  | true =>
    cases ok with
    | false =>
      simp [sa_events] at hev
      subst hev
      simp only [Event.progressOf, Option.some.injEq] at hp
      exact hp ▸ update_progress_in_range _ _ _ _ _
    | true =>
      simp [sa_events] at hev
      rcases hev with rfl | rfl
      · simp only [Event.progressOf, Option.some.injEq] at hp
        exact hp ▸ update_progress_in_range _ _ _ _ _
      · simp [Event.progressOf] at hp

theorem body_event_progress (examId : String) (N : ℕ) (sa : Bool) (env : Env) :
    ∀ ev ∈ body_events examId N sa env, ∀ p, ev.progressOf = some p →
      percentage_in_range p := by
  intro ev hev p hp
  unfold body_events at hev
  rcases List.mem_cons.1 hev with h | h
  · subst h
    simp only [Event.progressOf, Option.some.injEq] at hp
    exact hp ▸ update_progress_in_range _ _ _ _ _
  rcases List.mem_append.1 h with h | h
  · obtain ⟨v, _, hv⟩ := mem_concatMap.1 h
    exact process_version_event_progress _ _ _ _ _ ev hv p hp
  · exact sa_event_progress _ _ _ _ ev h p hp

/-- C5: every progress record persisted to the job store — the write of
either tier of `update_progress` for any percentage argument and any store
read-back, the initial record of the submission endpoint, and every write of
a background run including the terminal COMPLETED/FAILED writes — has its
percentage in `[0, 100]`. -/
theorem C5_persisted_percentage_in_range (current_step : String)
    (completed_versions total_versions : ℕ) (percentage : ℤ) (message : String)
    (previous_percentage elapsed_time : ℚ) (examId : String) (topics : List String)
    (config : ExamConfig) (N : ℕ) (sa : Bool) (env : Env) :
    percentage_in_range
      (update_progress current_step completed_versions total_versions percentage message) ∧
    percentage_in_range
      (progress_info current_step completed_versions total_versions percentage message
        previous_percentage elapsed_time).core ∧
    percentage_in_range (initial_record examId topics config).progress ∧
    ∀ p ∈ progress_writes (process_exam_generation_background examId N sa env),
      percentage_in_range p := by
  refine ⟨update_progress_in_range _ _ _ _ _, update_progress_in_range _ _ _ _ _,
    ⟨le_refl 0, (by norm_num : (0:ℤ) ≤ 100)⟩, ?_⟩
  intro p hp
  obtain ⟨ev, hev, hevp⟩ := List.mem_filterMap.1 hp
  unfold process_exam_generation_background at hev
  rcases List.mem_append.1 hev with h | h
  · exact body_event_progress _ _ _ _ ev h p hevp
  · cases hfin : env.finalWriteError with
    | none =>
      rw [hfin] at h
      simp only [List.mem_singleton] at h
      subst h
      simp only [Event.progressOf, Option.some.injEq] at hevp
      exact hevp ▸ ⟨(by norm_num : (0:ℤ) ≤ 100), le_refl (100:ℤ)⟩
    | some err =>
      rw [hfin] at h
      simp only [List.mem_singleton] at h
      subst h
      simp only [Event.progressOf, Option.some.injEq] at hevp
      exact hevp ▸ ⟨le_refl 0, (by norm_num : (0:ℤ) ≤ 100)⟩

/-- Witness for C5 at concrete inputs: an out-of-range raw percentage
argument (250) is clamped into range. -/
theorem C5_witness :
    percentage_in_range (update_progress "generating_questions" 0 2 250 "m") :=
  (C5_persisted_percentage_in_range "generating_questions" 0 2 250 "m" 0 0 "e" [] {} 1
    false ⟨fun _ => .success, false, none⟩).1

theorem fallback_estimate_bounds (cur : ℚ) (tv : ℕ) (step : String) :
    30 ≤ fallback_estimate cur tv step ∧ fallback_estimate cur tv step ≤ 600 :=
  ⟨le_max_left _ _, max_le (by norm_num) (min_le_right _ _)⟩

/-- C6: for every input, the returned timestamp is `now + t` where, when
progress velocity is positive (`elapsed > 0` and the percentage strictly
increased), `t` is `(100 - currentPercentage) / velocity` clamped to
`[10, 600]`; in every other case `t` comes from the step-based fallback and
lies in `[30, 600]`.  (The unreachable internal-error fallback of the Python
`except` returns a constant 300 s, also inside `[30, 600]`.) -/
theorem C6_eta_bounds (cur prev elapsed : ℚ) (tv : ℕ) (step : String) :
    (elapsed > 0 → cur > prev →
      calculate_estimated_completion cur prev elapsed tv step
          = max 10 (min ((100 - cur) / ((cur - prev) / elapsed)) 600) ∧
        10 ≤ calculate_estimated_completion cur prev elapsed tv step ∧
        calculate_estimated_completion cur prev elapsed tv step ≤ 600) ∧
    (¬ (elapsed > 0 ∧ cur > prev) →
      30 ≤ calculate_estimated_completion cur prev elapsed tv step ∧
      calculate_estimated_completion cur prev elapsed tv step ≤ 600) := by
  constructor
  · intro he hcp
    have hrate : (cur - prev) / elapsed > 0 := div_pos (by linarith) he
    have heq : calculate_estimated_completion cur prev elapsed tv step
        = max 10 (min ((100 - cur) / ((cur - prev) / elapsed)) 600) := by
      unfold calculate_estimated_completion
      rw [if_pos ⟨he, hcp⟩, if_pos hrate]
    exact ⟨heq, heq ▸ le_max_left _ _,
      heq ▸ max_le (by norm_num) (min_le_right _ _)⟩
  · intro hneg
    have heq : calculate_estimated_completion cur prev elapsed tv step
        = fallback_estimate cur tv step := by
      unfold calculate_estimated_completion
      rw [if_neg hneg]
    exact heq ▸ fallback_estimate_bounds cur tv step

/-- Witness for C6: a concrete velocity-positive input resolves to the
clamped velocity formula, and a concrete zero-elapsed input satisfies the
fallback bounds. -/
theorem C6_witness :
    calculate_estimated_completion 50 0 10 1 "generating_version_1"
        = max 10 (min ((100 - 50) / ((50 - 0) / 10)) 600) ∧
    30 ≤ calculate_estimated_completion 0 0 0 1 "generating_version_1" ∧
    calculate_estimated_completion 0 0 0 1 "generating_version_1" ≤ 600 := by
  refine ⟨((C6_eta_bounds 50 0 10 1 "generating_version_1").1
    (by norm_num) (by norm_num)).1, ?_⟩
  exact (C6_eta_bounds 0 0 0 1 "generating_version_1").2 (fun h => lt_irrefl 0 h.1)

theorem step_time_estimates_version_tag (tv k : ℕ) (hk1 : 1 ≤ k) (hk4 : k ≤ 4) :
    step_time_estimates tv ("generating_version_" ++ toString k) = none := by
  interval_cases k <;> rfl

/-- C7 counterexample: at `currentPercentage = 10`, `totalVersions = 3`,
zero-velocity, step tag `generating_version_1`, the fallback resolves to
`194.4 = 972/5` seconds, not to the `45 * 1.2 = 54` seconds that the
45-second per-version base estimate would give: the static table is keyed by
the exact string `generating_version`, which never matches the actual
per-version tags `generating_version_{k}`. -/
theorem C7_counterexample :
    calculate_estimated_completion 10 10 0 3 "generating_version_1" = 972 / 5 ∧
    (972 / 5 : ℚ) ≠ max 30 (min ((45 : ℚ) * 1.2) 600) := by
  constructor
  · have h := step_time_estimates_version_tag 3 1 (by norm_num) (by norm_num)
    unfold calculate_estimated_completion
    rw [if_neg (fun hc => lt_irrefl (0 : ℚ) hc.1)]
    unfold fallback_estimate base_estimate
    rw [show ("generating_version_" ++ toString 1) = "generating_version_1" from rfl] at h
    rw [h]
    norm_num
  · rw [show ((45 : ℚ) * 1.2) = 54 by norm_num, min_eq_left (by norm_num),
      max_eq_right (by norm_num)]
    norm_num

/-- C7 amended: when no positive velocity is available, the static table is
consulted with the exact step tag; every actual per-version tag
`generating_version_{k}` misses the table (whose dead `generating_version`
key does hold 45), so the fallback uses the default base estimate
`(100 - pct)/100 * (60 * totalVersions)`, times the 1.2 buffer, clamped to
`[30, 600]`. -/
theorem C7_amended_version_tag_fallback (cur prev elapsed : ℚ) (tv k : ℕ)
    (hvel : ¬ (elapsed > 0 ∧ cur > prev)) (hk1 : 1 ≤ k) (hk4 : k ≤ 4) :
    step_time_estimates tv "generating_version" = some 45 ∧
    calculate_estimated_completion cur prev elapsed tv
        ("generating_version_" ++ toString k)
      = max 30 (min (((100 - cur) / 100) * ((tv : ℚ) * 60) * 1.2) 600) := by
  refine ⟨rfl, ?_⟩
  unfold calculate_estimated_completion
  rw [if_neg hvel]
  unfold fallback_estimate base_estimate
  rw [step_time_estimates_version_tag tv k hk1 hk4]

/-- Witness for the amended C7 statement at a concrete zero-velocity input. -/
theorem C7_amended_witness :
    step_time_estimates 3 "generating_version" = some 45 ∧
    calculate_estimated_completion 10 10 0 3 ("generating_version_" ++ toString 1)
      = max 30 (min (((100 - 10) / 100) * ((3 : ℚ) * 60) * 1.2) 600) :=
  C7_amended_version_tag_fallback 10 10 0 3 1
    (fun h => lt_irrefl 0 h.1) (by norm_num) (by norm_num)

theorem spec_questionCount_ok_false_iff (config : ExamConfig) :
    spec_questionCount_ok config = false ↔
      ((config.questionCount.getD (.jint 0)).isInt = false ∨
       (config.questionCount.getD (.jint 0)).toInt < 1 ∨
       (config.questionCount.getD (.jint 0)).toInt > 20) := by
  cases h : (config.questionCount.getD (.jint 0)).isInt with
  | false => simp [spec_questionCount_ok, h]
  | true =>
    simp only [spec_questionCount_ok, h, Bool.true_and, Bool.and_eq_false_iff,
      decide_eq_false_iff_not, not_le, Bool.true_eq_false, false_or]

theorem spec_versions_ok_false_iff (config : ExamConfig) :
    spec_versions_ok config = false ↔
      ((config.versions.getD (.jint 1)).isInt = false ∨
       (config.versions.getD (.jint 1)).toInt < 1 ∨
       (config.versions.getD (.jint 1)).toInt > 4) := by
  cases h : (config.versions.getD (.jint 1)).isInt with
  | false => simp [spec_versions_ok, h]
  | true =>
    simp only [spec_versions_ok, h, Bool.true_and, Bool.and_eq_false_iff,
      decide_eq_false_iff_not, not_le, Bool.true_eq_false, false_or]

/-- C3: a submission whose config violates one of the four constraints —
questionCount outside `[1,20]`, empty/invalid questionTypes, difficulty not in
easy/medium/hard, versions outside `[1,4]` — is rejected with a 400
INVALID_CONFIG error whose message starts with the name of the first
offending field in the check order of the endpoint, and no record is written to
the job store.  `questionTypes` ranges over JSON lists (of arbitrary values),
as the API contract has it; the other fields range over arbitrary JSON
values. -/
theorem C3_invalid_config_rejected (topics : List String) (config : ExamConfig)
    (examId : String) (l : List JVal) (field : String)
    (htopics : topics ≠ [])
    (hlist : config.questionTypes.getD (.jlist []) = .jlist l)
    (hviol : spec_first_offending_field config = some field) :
    ∃ msg rest, validate_exam_config config = some msg ∧ msg = field ++ rest ∧
      handle_exam_generation_async topics (some config) examId
        = (SubmitResult.error 400 "INVALID_CONFIG" msg, []) := by
  have htop : topics.isEmpty = false := by
    cases topics with
    | nil => exact absurd rfl htopics
    | cons a t => rfl
  have hfwd : ∀ msg, validate_exam_config config = some msg →
      handle_exam_generation_async topics (some config) examId
        = (SubmitResult.error 400 "INVALID_CONFIG" msg, []) := by
    intro msg hmsg
    simp only [handle_exam_generation_async, htop, Bool.false_eq_true, if_false, hmsg]
  unfold spec_first_offending_field at hviol
  by_cases hA : spec_questionCount_ok config = false
  · rw [if_pos hA, Option.some.injEq] at hviol
    subst hviol
    have hval : validate_exam_config config
        = some "questionCount must be an integer between 1 and 20" := by
      unfold validate_exam_config
      rw [if_pos ((spec_questionCount_ok_false_iff config).1 hA)]
    exact ⟨_, " must be an integer between 1 and 20", hval, rfl, hfwd _ hval⟩
  rw [if_neg hA] at hviol
  have hcond1 : ¬ ((config.questionCount.getD (.jint 0)).isInt = false ∨
      (config.questionCount.getD (.jint 0)).toInt < 1 ∨
      (config.questionCount.getD (.jint 0)).toInt > 20) :=
    fun hc => hA ((spec_questionCount_ok_false_iff config).2 hc)
  by_cases hB : spec_questionTypes_ok config = false
  · rw [if_pos hB, Option.some.injEq] at hviol
    subst hviol
    have hBl : (!l.isEmpty && l.all fun qt =>
        qt.inStrList ["multiple_choice", "true_false", "mixed"]) = false := by
      unfold spec_questionTypes_ok at hB
      rw [hlist] at hB
      exact hB
    cases hle : l.isEmpty with
    | true =>
      have hval : validate_exam_config config = some
          "questionTypes must contain valid types: [multiple_choice, true_false, mixed]" := by
        unfold validate_exam_config
        rw [if_neg hcond1, hlist, if_pos (by simp [JVal.truthy, hle])]
      exact ⟨_, " must contain valid types: [multiple_choice, true_false, mixed]",
        hval, rfl, hfwd _ hval⟩
    | false =>
      have hall : (l.all fun qt =>
          qt.inStrList ["multiple_choice", "true_false", "mixed"]) = false := by
        rw [hle] at hBl
        simpa using hBl
      have hval : validate_exam_config config = some
          "questionTypes must contain valid types: [multiple_choice, true_false, mixed]" := by
        unfold validate_exam_config
        rw [if_neg hcond1, hlist, if_neg (by simp [JVal.truthy, hle])]
        simp only [JVal.pyIter]
        rw [if_pos hall]
      exact ⟨_, " must contain valid types: [multiple_choice, true_false, mixed]",
        hval, rfl, hfwd _ hval⟩
  rw [if_neg hB] at hviol
  have hBt : spec_questionTypes_ok config = true := by
    cases h : spec_questionTypes_ok config with
    | false => exact absurd h hB
    | true => rfl
  have hparts : (!l.isEmpty) = true ∧ (l.all fun qt =>
      qt.inStrList ["multiple_choice", "true_false", "mixed"]) = true := by
    unfold spec_questionTypes_ok at hBt
    rw [hlist] at hBt
    have hBt2 : (!l.isEmpty && l.all fun qt =>
        qt.inStrList ["multiple_choice", "true_false", "mixed"]) = true := hBt
    refine ⟨?_, ?_⟩
    · cases h : (!l.isEmpty) with
      | true => rfl
      | false => rw [h] at hBt2; simp at hBt2
    · cases h : (l.all fun qt =>
          qt.inStrList ["multiple_choice", "true_false", "mixed"]) with
      | true => rfl
      | false => rw [h] at hBt2; simp at hBt2
  have hle : l.isEmpty = false := by
    cases h : l.isEmpty with
    | false => rfl
    | true => rw [h] at hparts; exact absurd hparts.1 (by simp)
  by_cases hC : spec_difficulty_ok config = false
  · rw [if_pos hC, Option.some.injEq] at hviol
    subst hviol
    have hC' : (config.difficulty.getD (.jstr "")).inStrList
        ["easy", "medium", "hard"] = false := hC
    have hval : validate_exam_config config
        = some "difficulty must be one of: [easy, medium, hard]" := by
      unfold validate_exam_config
      rw [if_neg hcond1, hlist, if_neg (by simp [JVal.truthy, hle])]
      simp only [JVal.pyIter]
      rw [if_neg (by simp [hparts.2]), if_pos hC']
    exact ⟨_, " must be one of: [easy, medium, hard]", hval, rfl, hfwd _ hval⟩
  rw [if_neg hC] at hviol
  have hC' : ¬ ((config.difficulty.getD (.jstr "")).inStrList
      ["easy", "medium", "hard"] = false) := hC
  by_cases hD : spec_versions_ok config = false
  · rw [if_pos hD, Option.some.injEq] at hviol
    subst hviol
    have hval : validate_exam_config config
        = some "versions must be an integer between 1 and 4" := by
      unfold validate_exam_config
      rw [if_neg hcond1, hlist, if_neg (by simp [JVal.truthy, hle])]
      simp only [JVal.pyIter]
      rw [if_neg (by simp [hparts.2]), if_neg hC',
        if_pos ((spec_versions_ok_false_iff config).1 hD)]
    exact ⟨_, " must be an integer between 1 and 4", hval, rfl, hfwd _ hval⟩
  rw [if_neg hD] at hviol
  exact Option.noConfusion hviol

/-- Witness for C3: `questionCount = 25` with otherwise-valid fields is
rejected with INVALID_CONFIG, message naming questionCount, and no store
write. -/
theorem C3_witness :
    ∃ msg rest,
      validate_exam_config
        { questionCount := some (.jint 25), questionTypes := some (.jlist [.jstr "mixed"])
          difficulty := some (.jstr "easy"), versions := some (.jint 2) } = some msg ∧
      msg = "questionCount" ++ rest ∧
      handle_exam_generation_async ["Algebra"]
        (some { questionCount := some (.jint 25)
                questionTypes := some (.jlist [.jstr "mixed"])
                difficulty := some (.jstr "easy"), versions := some (.jint 2) }) "e"
        = (SubmitResult.error 400 "INVALID_CONFIG" msg, []) :=
  C3_invalid_config_rejected ["Algebra"] _ "e" [.jstr "mixed"] "questionCount"
    (List.cons_ne_nil _ _) rfl rfl

/-- C4: a status query for an id absent from the store signals the
404-equivalent not-found error (spelled EXAM_NOT_FOUND in the code); for a
present record it always returns the id, status, topics, config, createdAt
and progress, includes artifacts (`generatedFiles`) and completedAt exactly
when the stored status is COMPLETED, and includes errorMessage and failedAt
exactly when it is FAILED. -/
theorem C4_status_query (examId : String) (item : ExamItem) :
    handle_get_generation_results (some examId) none
        = .error 404 "EXAM_NOT_FOUND" s!"Exam {examId} not found" ∧
    ∃ d, handle_get_generation_results (some examId) (some item) = .ok d ∧
      d.examId = examId ∧
      d.status = item.status.getD "UNKNOWN" ∧
      d.examConfig = item.examConfig.getD {} ∧
      d.selectedTopics = item.selectedTopics ∧
      d.createdAt = item.createdAt ∧
      d.progress = item.progress ∧
      ((d.generatedFiles.isSome ∧ d.completedAt.isSome) ↔ item.status = some "COMPLETED") ∧
      ((d.errorMessage.isSome ∧ d.failedAt.isSome) ↔ item.status = some "FAILED") := by
  refine ⟨rfl, ?_⟩
  by_cases hc : item.status = some "COMPLETED"
  · have heq : handle_get_generation_results (some examId) (some item)
        = .ok { examId := examId
                status := item.status.getD "UNKNOWN"
                examConfig := item.examConfig.getD {}
                selectedTopics := item.selectedTopics
                createdAt := item.createdAt
                progress := item.progress
                generatedFiles := some (item.generatedFiles.getD [])
                completedAt := some item.completedAt
                errorMessage := none
                failedAt := none } := by
      simp only [handle_get_generation_results, if_pos hc]
    exact ⟨_, heq, rfl, rfl, rfl, rfl, rfl, rfl, by simp [hc], by simp [hc]⟩
  · by_cases hf : item.status = some "FAILED"
    · have heq : handle_get_generation_results (some examId) (some item)
          = .ok { examId := examId
                  status := item.status.getD "UNKNOWN"
                  examConfig := item.examConfig.getD {}
                  selectedTopics := item.selectedTopics
                  createdAt := item.createdAt
                  progress := item.progress
                  generatedFiles := none
                  completedAt := none
                  errorMessage := some item.errorMessage
                  failedAt := some item.failedAt } := by
        simp only [handle_get_generation_results, if_neg hc, if_pos hf]
      exact ⟨_, heq, rfl, rfl, rfl, rfl, rfl, rfl, by simp [hf], by simp [hf]⟩
    · have heq : handle_get_generation_results (some examId) (some item)
          = .ok { examId := examId
                  status := item.status.getD "UNKNOWN"
                  examConfig := item.examConfig.getD {}
                  selectedTopics := item.selectedTopics
                  createdAt := item.createdAt
                  progress := item.progress
                  generatedFiles := none
                  completedAt := none
                  errorMessage := none
                  failedAt := none } := by
        simp only [handle_get_generation_results, if_neg hc, if_neg hf]
      exact ⟨_, heq, rfl, rfl, rfl, rfl, rfl, rfl, by simp [hc], by simp [hf]⟩

/-- Witness for C4 at a concrete id and a concrete COMPLETED item. -/
theorem C4_witness :
    handle_get_generation_results (some "e") none
        = .error 404 "EXAM_NOT_FOUND" "Exam e not found" ∧
    ∃ d, handle_get_generation_results (some "e")
        (some { status := some "COMPLETED", examConfig := none, selectedTopics := ["t"]
                createdAt := some "now", progress := none
                generatedFiles := some [], completedAt := some "ts"
                errorMessage := none, failedAt := none }) = .ok d ∧
      d.examId = "e" ∧
      d.status = (some "COMPLETED").getD "UNKNOWN" ∧
      d.examConfig = (none : Option ExamConfig).getD {} ∧
      d.selectedTopics = ["t"] ∧
      d.createdAt = some "now" ∧
      d.progress = (none : Option ProgressRecord) ∧
      ((d.generatedFiles.isSome ∧ d.completedAt.isSome) ↔
        (some "COMPLETED" : Option String) = some "COMPLETED") ∧
      ((d.errorMessage.isSome ∧ d.failedAt.isSome) ↔
        (some "COMPLETED" : Option String) = some "FAILED") :=
  C4_status_query "e"
    { status := some "COMPLETED", examConfig := none, selectedTopics := ["t"]
      createdAt := some "now", progress := none
      generatedFiles := some [], completedAt := some "ts"
      errorMessage := none, failedAt := none }

theorem loop_files_all_success (examId : String) (ts N : ℕ) (env : Env)
    (hok : ∀ v, 1 ≤ v → v ≤ N → env.versionOutcome v = .success) :
    loop_files examId ts N env
      = concatMap (fun v => [studentFile examId v, teacherFile examId v])
          (version_list N) := by
  rw [loop_files_congr examId ts N env (fun _ => .success) hok]
  rfl

theorem loop_files_one_failure (examId err : String) (ts N f : ℕ) (env : Env)
    (hfail : env.versionOutcome f = .genFails err)
    (hok : ∀ v, 1 ≤ v → v ≤ N → v ≠ f → env.versionOutcome v = .success) :
    loop_files examId ts N env
      = concatMap (fun v => if v = f then []
          else [studentFile examId v, teacherFile examId v]) (version_list N) := by
  rw [loop_files_congr examId ts N env
    (fun v => if v = f then .genFails err else .success)
    (fun v h1 h2 => by
      show env.versionOutcome v
        = if v = f then VersionOutcome.genFails err else VersionOutcome.success
      by_cases hv : v = f
      · rw [if_pos hv, hv, hfail]
      · rw [if_neg hv, hok v h1 h2 hv])]
  refine concatMap_congr fun v _ => ?_
  show (process_version ts N examId v
      (if v = f then VersionOutcome.genFails err else VersionOutcome.success)).2
    = if v = f then [] else [studentFile examId v, teacherFile examId v]
  by_cases hv : v = f
  · rw [if_pos hv, if_pos hv]
    rfl
  · rw [if_neg hv, if_neg hv]
    rfl

theorem filter_student_pairs_except (examId : String) (f : ℕ) (l : List ℕ) :
    (concatMap (fun v => if v = f then []
        else [studentFile examId v, teacherFile examId v]) l).filter
        (fun g => g.type == "student_version")
      = (l.filter fun v => decide (v ≠ f)).map (studentFile examId) := by
  induction l with
  | nil => rfl
  | cons v l ih =>
    by_cases hv : v = f
    · have hd : (decide (v ≠ f)) = false := by simp [hv]
      simp only [concatMap, if_pos hv, List.nil_append, ih, List.filter_cons, hd,
        Bool.false_eq_true, if_false]
    · have hd : (decide (v ≠ f)) = true := by simp [hv]
      simp only [concatMap, if_neg hv, List.filter_append, ih, List.filter_cons, hd,
        if_true, List.map_cons]
      rfl

theorem filter_teacher_pairs_except (examId : String) (f : ℕ) (l : List ℕ) :
    (concatMap (fun v => if v = f then []
        else [studentFile examId v, teacherFile examId v]) l).filter
        (fun g => g.type == "teacher_version")
      = (l.filter fun v => decide (v ≠ f)).map (teacherFile examId) := by
  induction l with
  | nil => rfl
  | cons v l ih =>
    by_cases hv : v = f
    · have hd : (decide (v ≠ f)) = false := by simp [hv]
      simp only [concatMap, if_pos hv, List.nil_append, ih, List.filter_cons, hd,
        Bool.false_eq_true, if_false]
    · have hd : (decide (v ≠ f)) = true := by simp [hv]
      simp only [concatMap, if_neg hv, List.filter_append, ih, List.filter_cons, hd,
        if_true, List.map_cons]
      rfl

theorem map_version_studentFile (examId : String) (l : List ℕ) :
    ((l.map (studentFile examId)).map fun g => g.version) = l := by
  induction l with
  | nil => rfl
  | cons v l ih =>
    simp only [List.map_cons, ih]
    rfl

theorem map_version_teacherFile (examId : String) (l : List ℕ) :
    ((l.map (teacherFile examId)).map fun g => g.version) = l := by
  induction l with
  | nil => rfl
  | cons v l ih =>
    simp only [List.map_cons, ih]
    rfl

/-- C1 amended: for every valid config (`versions = N ∈ [1,4]`) and a run in
which the sub-steps of every version succeed and the terminal write succeeds, the
COMPLETED record holds exactly `2N` student/teacher artifacts — the student
versions are exactly `1..N` and the teacher versions are exactly `1..N`, so
one of each kind per version with no duplicate version numbers within a
kind.  (When a version fails, the job still completes with fewer artifacts —
see the counterexample.) -/
theorem C1_amended_all_success (examId : String) (N : ℕ) (sa : Bool) (env : Env)
    (hN1 : 1 ≤ N) (hN4 : N ≤ 4)
    (hok : ∀ v, 1 ≤ v → v ≤ N → env.versionOutcome v = .success)
    (hfin : env.finalWriteError = none) :
    (runJob examId N sa env).status = "COMPLETED" ∧
    ∃ files, (runJob examId N sa env).generatedFiles = some files ∧
      (files.filter fun g =>
          g.type == "student_version" || g.type == "teacher_version").length = 2 * N ∧
      ((files.filter fun g => g.type == "student_version").map fun g => g.version)
        = version_list N ∧
      ((files.filter fun g => g.type == "teacher_version").map fun g => g.version)
        = version_list N := by
  rw [runJob_completed examId N sa env hfin]
  refine ⟨rfl, generated_files_final examId N sa env, rfl, ?_, ?_, ?_⟩
  · unfold generated_files_final
    rw [List.filter_append, loop_files_all_success examId _ N env hok, filter_kind_pairs,
      sa_files_filter_kind, List.append_nil, length_pairs, length_version_list]
  · unfold generated_files_final
    rw [List.filter_append, loop_files_all_success examId _ N env hok, filter_student_pairs,
      sa_files_filter_student, List.append_nil, map_version_studentFile]
  · unfold generated_files_final
    rw [List.filter_append, loop_files_all_success examId _ N env hok, filter_teacher_pairs,
      sa_files_filter_teacher, List.append_nil, map_version_teacherFile]

/-- Witness for the amended C1 statement at `N = 2`, all sub-steps succeeding. -/
theorem C1_amended_witness :
    (runJob "e" 2 false ⟨fun _ => .success, false, none⟩).status = "COMPLETED" ∧
    ∃ files,
      (runJob "e" 2 false ⟨fun _ => .success, false, none⟩).generatedFiles = some files ∧
      (files.filter fun g =>
          g.type == "student_version" || g.type == "teacher_version").length = 2 * 2 ∧
      ((files.filter fun g => g.type == "student_version").map fun g => g.version)
        = version_list 2 ∧
      ((files.filter fun g => g.type == "teacher_version").map fun g => g.version)
        = version_list 2 :=
  C1_amended_all_success "e" 2 false ⟨fun _ => .success, false, none⟩
    (by norm_num) (by norm_num) (fun _ _ _ => rfl) rfl

/-- C1 counterexample: with a valid config of `versions = 2`, a run in which
the generation call of version 1 raises still reaches COMPLETED, but its final
record holds 2 artifacts, not `2 * 2 = 4`: the universally stated artifact
count fails on runs with a failed version. -/
theorem C1_counterexample :
    (runJob "e" 2 false
        ⟨fun v => if v = 1 then .genFails "boom" else .success, false, none⟩).status
      = "COMPLETED" ∧
    ((runJob "e" 2 false
        ⟨fun v => if v = 1 then .genFails "boom" else .success, false, none⟩).generatedFiles.getD
      []).length = 2 ∧
    (2 : ℕ) ≠ 2 * 2 := by
  refine ⟨by decide, by decide, by decide⟩

/-- C2: when the generation call for one version raises, the worker persists
an error-flavored progress update naming that version (step
`error_version_{f}`, message `Error in version {f}: ...`) and continues; the
job still reaches COMPLETED, the final record retains exactly the artifacts
of the other versions, and carries no `errorMessage` — the failure is visible
only in the intermediate progress writes of the body, not in the terminal
record. -/
theorem C2_version_failure_continues (examId err : String) (N f : ℕ) (sa : Bool)
    (env : Env)
    (hf1 : 1 ≤ f) (hfN : f ≤ N)
    (hfail : env.versionOutcome f = .genFails err)
    (hok : ∀ v, 1 ≤ v → v ≤ N → v ≠ f → env.versionOutcome v = .success)
    (hfin : env.finalWriteError = none) :
    Event.dbProgress (update_progress s!"error_version_{f}" (f - 1) N
        (step_progress (total_steps N sa) f) s!"Error in version {f}: {err}")
      ∈ body_events examId N sa env ∧
    (runJob examId N sa env).status = "COMPLETED" ∧
    (runJob examId N sa env).errorMessage = none ∧
    ∃ files, (runJob examId N sa env).generatedFiles = some files ∧
      ((files.filter fun g => g.type == "student_version").map fun g => g.version)
        = (version_list N).filter (fun v => decide (v ≠ f)) ∧
      ((files.filter fun g => g.type == "teacher_version").map fun g => g.version)
        = (version_list N).filter (fun v => decide (v ≠ f)) := by
  refine ⟨?_, ?_⟩
  · unfold body_events
    apply List.mem_cons_of_mem
    apply List.mem_append_left
    unfold loop_events
    refine mem_concatMap.2 ⟨f, mem_version_list.2 ⟨hf1, hfN⟩, ?_⟩
    rw [hfail]
    exact List.mem_cons_of_mem _ (List.mem_cons_self _ _)
  · rw [runJob_completed examId N sa env hfin]
    refine ⟨rfl, rfl, generated_files_final examId N sa env, rfl, ?_, ?_⟩
    · unfold generated_files_final
      rw [List.filter_append, loop_files_one_failure examId err _ N f env hfail hok,
        filter_student_pairs_except, sa_files_filter_student, List.append_nil,
        map_version_studentFile]
    · unfold generated_files_final
      rw [List.filter_append, loop_files_one_failure examId err _ N f env hfail hok,
        filter_teacher_pairs_except, sa_files_filter_teacher, List.append_nil,
        map_version_teacherFile]

/-- Witness for C2: version 2 of 3 fails, versions 1 and 3 succeed. -/
theorem C2_witness :
    Event.dbProgress (update_progress s!"error_version_{(2 : ℕ)}" (2 - 1) 3
        (step_progress (total_steps 3 false) 2) s!"Error in version {(2 : ℕ)}: boom")
      ∈ body_events "e" 3 false
        ⟨fun v => if v = 2 then .genFails "boom" else .success, false, none⟩ ∧
    (runJob "e" 3 false
        ⟨fun v => if v = 2 then .genFails "boom" else .success, false, none⟩).status
      = "COMPLETED" ∧
    (runJob "e" 3 false
        ⟨fun v => if v = 2 then .genFails "boom" else .success, false, none⟩).errorMessage
      = none ∧
    ∃ files,
      (runJob "e" 3 false
        ⟨fun v => if v = 2 then .genFails "boom" else .success, false,
          none⟩).generatedFiles = some files ∧
      ((files.filter fun g => g.type == "student_version").map fun g => g.version)
        = (version_list 3).filter (fun v => decide (v ≠ 2)) ∧
      ((files.filter fun g => g.type == "teacher_version").map fun g => g.version)
        = (version_list 3).filter (fun v => decide (v ≠ 2)) :=
  C2_version_failure_continues "e" "boom" 3 2 false
    ⟨fun v => if v = 2 then .genFails "boom" else .success, false, none⟩
    (by norm_num) (by norm_num) rfl
    (fun v _ _ hv => if_neg hv) rfl

/-- C9: for every run whose terminal write succeeds the job reaches
COMPLETED; the `self_assessment` artifacts of the final record are exactly one
artifact with version 1 when self-assessment was requested and its generation
succeeded, and none otherwise — in particular a self-assessment failure is
swallowed and the job still completes without that artifact. -/
theorem C9_self_assessment_artifact (examId : String) (N : ℕ) (sa : Bool) (env : Env)
    (hfin : env.finalWriteError = none) :
    (runJob examId N sa env).status = "COMPLETED" ∧
    (selfAssessmentFile examId).version = 1 ∧
    ∃ files, (runJob examId N sa env).generatedFiles = some files ∧
      (files.filter fun g => g.type == "self_assessment")
        = (if sa && env.selfAssessmentOk then [selfAssessmentFile examId] else []) := by
  rw [runJob_completed examId N sa env hfin]
  refine ⟨rfl, rfl, generated_files_final examId N sa env, rfl, ?_⟩
  unfold generated_files_final
  rw [List.filter_append, loop_files_no_self, sa_files_filter_self, List.nil_append]
  rfl

/-- Witness for C9: self-assessment requested but failing — the job still
completes with zero `self_assessment` artifacts. -/
theorem C9_witness :
    (runJob "e" 1 true ⟨fun _ => .success, false, none⟩).status = "COMPLETED" ∧
    (selfAssessmentFile "e").version = 1 ∧
    ∃ files,
      (runJob "e" 1 true ⟨fun _ => .success, false, none⟩).generatedFiles = some files ∧
      (files.filter fun g => g.type == "self_assessment")
        = (if true && false then [selfAssessmentFile "e"] else []) :=
  C9_self_assessment_artifact "e" 1 true ⟨fun _ => .success, false, none⟩ rfl

/-- C10: whenever the terminal COMPLETED write raises and the outer handler
installs the FAILED record, the persisted progress sub-record is overwritten
with `completedVersions = 0` and `percentage = 0` regardless of the actual
per-version outcomes of the run, with `currentStep = "failed"`, the stringified
failure message, and `errorMessage`/`failedAt` set. -/
theorem C10_failed_write_resets_progress (examId err : String) (N : ℕ) (sa : Bool)
    (env : Env) (hfail : env.finalWriteError = some err) :
    (runJob examId N sa env).status = "FAILED" ∧
    (runJob examId N sa env).errorMessage = some err ∧
    (runJob examId N sa env).failedAt = true ∧
    (runJob examId N sa env).progress.currentStep = "failed" ∧
    (runJob examId N sa env).progress.completedVersions = 0 ∧
    (runJob examId N sa env).progress.percentage = 0 ∧
    (runJob examId N sa env).progress.totalVersions = N ∧
    (runJob examId N sa env).progress.message = s!"Generation failed: {err}" := by
  rw [runJob_failed examId N sa env err hfail]
  exact ⟨rfl, rfl, rfl, rfl, rfl, rfl, rfl, rfl⟩

/-- Witness for C10: both versions of a two-version run completed, yet the
FAILED write still records zero completed versions and zero percent. -/
theorem C10_witness :
    (runJob "e" 2 false ⟨fun _ => .success, false, some "db down"⟩).status = "FAILED" ∧
    (runJob "e" 2 false ⟨fun _ => .success, false, some "db down"⟩).errorMessage
      = some "db down" ∧
    (runJob "e" 2 false ⟨fun _ => .success, false, some "db down"⟩).failedAt = true ∧
    (runJob "e" 2 false
      ⟨fun _ => .success, false, some "db down"⟩).progress.currentStep = "failed" ∧
    (runJob "e" 2 false
      ⟨fun _ => .success, false, some "db down"⟩).progress.completedVersions = 0 ∧
    (runJob "e" 2 false
      ⟨fun _ => .success, false, some "db down"⟩).progress.percentage = 0 ∧
    (runJob "e" 2 false
      ⟨fun _ => .success, false, some "db down"⟩).progress.totalVersions = 2 ∧
    (runJob "e" 2 false
      ⟨fun _ => .success, false, some "db down"⟩).progress.message
      = "Generation failed: " ++ "db down" :=
  C10_failed_write_resets_progress "e" "db down" 2 false
    ⟨fun _ => .success, false, some "db down"⟩ rfl

theorem process_version_files_uploaded (ts N : ℕ) (examId : String) (v : ℕ)
    (o : VersionOutcome) :
    ∀ g ∈ (process_version ts N examId v o).2,
      Event.s3Put g.s3Key ∈ (process_version ts N examId v o).1 := by
  intro g hg
  cases o with
  | genFails err => simp [process_version] at hg
  | studentUploadFails err => simp [process_version] at hg
  | teacherUploadFails err =>
    simp only [process_version, List.mem_cons, List.not_mem_nil, or_false] at hg
    subst hg
    exact List.mem_cons_of_mem _ (List.mem_cons_of_mem _ (List.mem_cons_self _ _))
  | success =>
    simp only [process_version, List.mem_cons, List.not_mem_nil, or_false] at hg
    rcases hg with rfl | rfl
    · exact List.mem_cons_of_mem _ (List.mem_cons_of_mem _ (List.mem_cons_self _ _))
    · exact List.mem_cons_of_mem _ (List.mem_cons_of_mem _
        (List.mem_cons_of_mem _ (List.mem_cons_self _ _)))

theorem generated_files_uploaded (examId : String) (N : ℕ) (sa : Bool) (env : Env) :
    ∀ g ∈ generated_files_final examId N sa env,
      Event.s3Put g.s3Key ∈ body_events examId N sa env := by
  intro g hg
  unfold generated_files_final at hg
  unfold body_events
  apply List.mem_cons_of_mem
  rcases List.mem_append.1 hg with h | h
  · apply List.mem_append_left
    obtain ⟨v, hv, hgv⟩ := mem_concatMap.1 h
    exact mem_concatMap.2 ⟨v, hv, process_version_files_uploaded _ _ _ _ _ g hgv⟩
  · apply List.mem_append_right
    cases hsa : sa with
    | false => rw [hsa] at h; simp [sa_files] at h
    | true =>
      cases hok : env.selfAssessmentOk with
      | false => rw [hsa, hok] at h; simp [sa_files] at h
      | true =>
        rw [hsa, hok] at h
        simp only [sa_files, Bool.and_self, if_true] at h
        rw [List.mem_singleton] at h
        subst h
        exact List.mem_cons_of_mem _ (List.mem_cons_self _ _)

/-- C8 amended: the content of every artifact is persisted to blob storage (an
`s3Put` in the body of the trace) before any job-store write references its
descriptor, because the only write referencing descriptors is the terminal
COMPLETED write, which is the last event of the trace and carries the whole
list at once; the incrementally growing descriptor list is a worker-local
variable, not the persisted record. -/
theorem C8_amended_blob_put_precedes_reference (examId : String) (N : ℕ) (sa : Bool)
    (env : Env) (hfin : env.finalWriteError = none) :
    process_exam_generation_background examId N sa env
      = body_events examId N sa env
        ++ [Event.dbComplete (generated_files_final examId N sa env)
            (completed_progress N (generated_files_final examId N sa env).length)] ∧
    (∀ ev ∈ body_events examId N sa env, ev.referencesFiles = false) ∧
    (∀ g ∈ generated_files_final examId N sa env,
      Event.s3Put g.s3Key ∈ body_events examId N sa env) := by
  refine ⟨?_, ?_, generated_files_uploaded examId N sa env⟩
  · unfold process_exam_generation_background
    rw [hfin]
  · intro ev hev
    have hterm := body_events_not_terminal examId N sa env ev hev
    cases ev with
    | s3Put _ => rfl
    | dbProgress _ => rfl
    | dbComplete _ _ => exact absurd hterm (by simp [Event.isTerminalWrite])
    | dbFailed _ _ => rfl

/-- Witness for the amended C8 statement at a concrete two-version run. -/
theorem C8_amended_witness :
    process_exam_generation_background "e" 2 false ⟨fun _ => .success, false, none⟩
      = body_events "e" 2 false ⟨fun _ => .success, false, none⟩
        ++ [Event.dbComplete
            (generated_files_final "e" 2 false ⟨fun _ => .success, false, none⟩)
            (completed_progress 2
              (generated_files_final "e" 2 false
                ⟨fun _ => .success, false, none⟩).length)] ∧
    (∀ ev ∈ body_events "e" 2 false ⟨fun _ => .success, false, none⟩,
      ev.referencesFiles = false) ∧
    (∀ g ∈ generated_files_final "e" 2 false ⟨fun _ => .success, false, none⟩,
      Event.s3Put g.s3Key ∈ body_events "e" 2 false ⟨fun _ => .success, false, none⟩) :=
  C8_amended_blob_put_precedes_reference "e" 2 false ⟨fun _ => .success, false, none⟩ rfl

/-- C8 counterexample: in a fully successful two-version run, after every
persisted write but the last the job record still holds no `generatedFiles`
at all — even though the artifacts of both versions were already uploaded (their
`s3Put`s are in that prefix); the descriptors appear in the persisted record
only at the single terminal COMPLETED write, not incrementally as each
version is produced. -/
theorem C8_counterexample :
    ((((process_exam_generation_background "e" 2 false
          ⟨fun _ => .success, false, none⟩).dropLast).foldl applyEvent
        (initialJobRecord 2)).generatedFiles = none) ∧
    Event.s3Put "exams/exam-e/v1-student.txt"
      ∈ (process_exam_generation_background "e" 2 false
          ⟨fun _ => .success, false, none⟩).dropLast ∧
    Event.s3Put "exams/exam-e/v2-teacher.txt"
      ∈ (process_exam_generation_background "e" 2 false
          ⟨fun _ => .success, false, none⟩).dropLast ∧
    ((process_exam_generation_background "e" 2 false
          ⟨fun _ => .success, false, none⟩).foldl applyEvent
        (initialJobRecord 2)).generatedFiles
      = some [studentFile "e" 1, teacherFile "e" 1, studentFile "e" 2, teacherFile "e" 2] := by
  refine ⟨by decide, by decide, by decide, by decide⟩

end ExamGen
